import Mathlib

/-!
Shallow embedding of `src/helpers/InitHelper.ts` from the OneSignal-Website-SDK
repository, covering the session bootstrap orchestrator (`sessionInit`,
`finishSessionInit`), the subscription renewal coordinator
(`processExpiringSubscriptions`), the visibility deferral in `internalInit`,
and `installNativePromptPermissionChangedHook`.

External collaborators (browser identity via `bowser`, `OneSignal` globals,
prompt calls, the subscription manager, the worker messenger, the database)
are modelled as an explicit environment record whose fields give the result
of each awaited external call; a call that may reject carries an
`Except JsError` result.  Each run of a modelled function produces an ordered
trace of observable effects, the final value of the mutated globals, and an
outcome (`none` for a normal return, `some e` for a thrown error).
-/

namespace OneSignalSDK

/-- Errors that the prompt / subscription flow can raise.  The four named
constructors are the error classes singled out by the catch handler in
`sessionInit` (`InvalidStateError` with reason `RedundantPermissionMessage`,
`PermissionMessageDismissedError`, `AlreadySubscribedError`,
`PushPermissionNotGrantedError`); `other` stands for every other error. -/
inductive JsError
  | invalidStateRedundantPermissionMessage
  | permissionMessageDismissed
  | alreadySubscribed
  | pushPermissionNotGranted
  | other
deriving DecidableEq, Repr

/-- The errors treated as benign by the catch handler at the end of
`sessionInit` (lines 459-465 of `InitHelper.ts`). -/
def JsError.isBenignPromptError : JsError → Bool
  | .invalidStateRedundantPermissionMessage => true
  | .permissionMessageDismissed => true
  | .alreadySubscribed => true
  | .pushPermissionNotGranted => true
  | .other => false

/-- Browser identity as exposed by the `bowser` library: vendor flags, the
numeric version (`Number(bowser.version)`), and form-factor flags. -/
structure Browser where
  chrome : Bool
  safari : Bool
  firefox : Bool
  tablet : Bool
  mobile : Bool
  version : ℚ
deriving DecidableEq

/-- `SessionInitOptions` from `InitHelper.ts` (lines 40-45). -/
structure SessionInitOptions where
  modalPrompt : Bool := false
  __fromRegister : Bool := false
  __fromInit : Bool := false
  autoAccept : Bool := false
deriving DecidableEq, Repr

/-- Observable effects performed by `sessionInit` (and `finishSessionInit`),
in program order. -/
inductive Effect
  | logDebug
  | logInfo
  | latchSet (b : Bool)
  | modalHostLoad
  | sdkInitializedEvent
  | showHttpPrompt
  | registerForPushCall
  | setSubscriptionCall
deriving DecidableEq, Repr

/-- Environment of one `sessionInit` call: the values returned by the
external collaborators it consults.  Fields that correspond to awaited
calls that may reject are `Except JsError`-valued. -/
structure SessionInitEnv where
  browser : Browser
  /-- `OneSignal.config.userConfig.autoRegister`; `none` models `undefined`.
  The code compares with `=== true` and `=== false`. -/
  autoRegister : Option Bool
  /-- `isUsingSubscriptionWorkaround()` -/
  usingSubscriptionWorkaround : Bool
  /-- `MainHelper.wasHttpsNativePromptDismissed()` -/
  wasHttpsNativePromptDismissed : Bool
  /-- `MainHelper.isHttpPromptAlreadyShown()` -/
  isHttpPromptAlreadyShown : Bool
  /-- `await OneSignal.internalIsOptedOut()` -/
  internalIsOptedOut : Except JsError Bool
  /-- `await OneSignal.subscriptionModalHost.load()` -/
  modalHostLoad : Except JsError Unit
  /-- result of `OneSignal.privateShowHttpPrompt()` -/
  showHttpPromptResult : Except JsError Unit
  /-- `await SubscriptionHelper.registerForPush()` -/
  registerForPushResult : Except JsError Unit

/-- Result of a `sessionInit` call: the final value of
`OneSignal._sessionInitAlreadyRunning`, the ordered effect trace, and the
outcome (`none` = resolved, `some e` = rejected with `e`). -/
structure SessionInitResult where
  latch : Bool
  trace : List Effect
  outcome : Option JsError
deriving DecidableEq, Repr

namespace InitHelper

/-- Effects of `finishSessionInit` (lines 382-387): reset the latch, then
trigger `SDK_INITIALIZED` exactly when `options.__fromInit` is set. -/
def finishSessionInit (options : SessionInitOptions) : List Effect :=
  Effect.latchSet false ::
    (if options.__fromInit then [Effect.sdkInitializedEvent] else [])

/-- The `showSlidedown` condition computed at lines 432-436:
`!options.__fromRegister && autoRegister === true &&
((chrome && version >= 63 && (tablet || mobile)) || (safari && version >= 12.1))`. -/
def showSlidedownCond (env : SessionInitEnv) (options : SessionInitOptions) : Bool :=
  !options.__fromRegister && (env.autoRegister == some true) &&
    ((env.browser.chrome && decide (env.browser.version ≥ 63) &&
        (env.browser.tablet || env.browser.mobile)) ||
      (env.browser.safari && decide (env.browser.version ≥ (12.1 : ℚ))))

/-- Shallow embedding of `InitHelper.sessionInit` (lines 389-474).
`latch` is the value of `OneSignal._sessionInitAlreadyRunning` on entry. -/
def sessionInit (env : SessionInitEnv) (options : SessionInitOptions)
    (latch : Bool) : SessionInitResult :=
  -- line 394: Log.debug(`Called sessionInit(...)`)
  if latch then
    -- lines 396-399: already running, log and return
    { latch := true, trace := [Effect.logDebug, Effect.logDebug], outcome := none }
  else
    -- line 401: OneSignal._sessionInitAlreadyRunning = true
    let tr0 : List Effect := [Effect.logDebug, Effect.latchSet true]
    if options.__fromRegister && options.modalPrompt then
      -- lines 404-410: HTTPS fullscreen modal path
      match env.modalHostLoad with
      | .error e =>
        { latch := true, trace := tr0 ++ [Effect.modalHostLoad], outcome := some e }
      | .ok _ =>
        { latch := false
          trace := tr0 ++ [Effect.modalHostLoad] ++ finishSessionInit options
          outcome := none }
    else if !env.usingSubscriptionWorkaround then
      if options.__fromInit && env.wasHttpsNativePromptDismissed then
        -- lines 416-420: prompt previously dismissed, suppress
        { latch := false
          trace := tr0 ++ [Effect.logDebug] ++ finishSessionInit options
          outcome := none }
      else
        match env.internalIsOptedOut with
        | .error e => { latch := true, trace := tr0, outcome := some e }
        | .ok isOptedOut =>
          if !isOptedOut then
            if showSlidedownCond env options then
              -- lines 437-440: finish, then fire-and-forget slide-down prompt
              { latch := false
                trace := tr0 ++ finishSessionInit options ++ [Effect.showHttpPrompt]
                outcome := none }
            else
              -- lines 441-444: finish, then awaited registerForPush (no catch)
              match env.registerForPushResult with
              | .error e =>
                { latch := false
                  trace := tr0 ++ finishSessionInit options ++ [Effect.registerForPushCall]
                  outcome := some e }
              | .ok _ =>
                { latch := false
                  trace := tr0 ++ finishSessionInit options ++ [Effect.registerForPushCall]
                  outcome := none }
          else
            -- lines 445-448: opted out, finish then setSubscription(true)
            { latch := false
              trace := tr0 ++ finishSessionInit options ++ [Effect.setSubscriptionCall]
              outcome := none }
    else
      -- lines 452-473: subscription-workaround (legacy insecure) path
      let warnLogs : List Effect :=
        (if !(env.autoRegister == some true) then [Effect.logDebug] else []) ++
          (if env.isHttpPromptAlreadyShown then [Effect.logDebug] else [])
      if (env.autoRegister == some true) && !env.isHttpPromptAlreadyShown then
        match env.showHttpPromptResult with
        | .error e =>
          -- lines 458-471: caught; benign errors log debug, others log info
          let lg := if e.isBenignPromptError then Effect.logDebug else Effect.logInfo
          { latch := false
            trace := tr0 ++ warnLogs ++ [Effect.showHttpPrompt, lg] ++
              finishSessionInit options
            outcome := none }
        | .ok _ =>
          { latch := false
            trace := tr0 ++ warnLogs ++ [Effect.showHttpPrompt] ++
              finishSessionInit options
            outcome := none }
      else
        { latch := false
          trace := tr0 ++ warnLogs ++ finishSessionInit options
          outcome := none }

end InitHelper

/-- `IntegrationKind` (from `models/IntegrationKind`): the three integration
modes the renewal coordinator branches on.  `Secure` is the spec's
`DirectSecure`, `SecureProxy` is `ProxiedSecure`, `InsecureProxy` is
`InsecureLegacy`. -/
inductive IntegrationKind
  | Secure
  | SecureProxy
  | InsecureProxy
deriving DecidableEq, Repr

/-- The window environments `processExpiringSubscriptions` distinguishes:
the OneSignal proxy frame (the spec's `AuxiliaryFrame`) versus the hosting
page (`TopFrame`). -/
inductive WindowEnvironmentKind
  | OneSignalProxyFrame
  | Host
deriving DecidableEq, Repr

/-- Worker-messenger command types (from `libraries/WorkerMessenger`);
`SubscribeNew` is the one used by the renewal protocol, the others stand
for unrelated commands. -/
inductive WorkerMessengerCommand
  | SubscribeNew
  | Subscribe
  | AmpSubscribe
deriving DecidableEq, Repr

/-- Modelled from the spec: the `Subscription` model class is not under
`src/`; the spec's `SubscriptionRecord` is an "opaque identifier + auth
material ... deserialized from a cross-frame message payload". -/
structure Subscription where
  deviceId : Option String
  subscriptionToken : Option String
deriving DecidableEq, Repr

/-- A serialized subscription as carried in a cross-frame message payload. -/
structure SubscriptionBundle where
  deviceId : Option String
  subscriptionToken : Option String
deriving DecidableEq, Repr

/-- Modelled from the spec: `Subscription.deserialize` is not under `src/`;
the coordinator "resolves with the deserialized SubscriptionRecord from the
reply payload". -/
def Subscription.deserialize (bundle : SubscriptionBundle) : Subscription :=
  { deviceId := bundle.deviceId
    subscriptionToken := bundle.subscriptionToken }

/-- Modelled from the spec: `WorkerMessenger.once` is not under `src/`; the
spec's `PendingRenewalRequest` "correlates one outbound RPC command to
exactly one inbound reply via a one-shot listener keyed by command type;
destroyed after first match or never resolved". -/
structure PendingRenewalRequest where
  command : WorkerMessengerCommand
  resolvedWith : Option Subscription
deriving DecidableEq, Repr

/-- Arming the one-shot listener (`context.workerMessenger.once(cmd, ...)`,
line 90): a pending request for `cmd`, not yet resolved. -/
def armRenewalListener (cmd : WorkerMessengerCommand) : PendingRenewalRequest :=
  { command := cmd
    resolvedWith := none }

/-- Delivery of one inbound worker message to the pending request: a
message whose command matches the armed command resolves the request (with
the deserialized payload) and destroys the listener; any other message, or
a message arriving after resolution, leaves the request unchanged. -/
def deliverWorkerMessage (p : PendingRenewalRequest) (cmd : WorkerMessengerCommand)
    (payload : SubscriptionBundle) : PendingRenewalRequest :=
  if p.resolvedWith = none ∧ cmd = p.command then
    { command := p.command
      resolvedWith := some (Subscription.deserialize payload) }
  else p

/-- Observable effects of `processExpiringSubscriptions`, in program order. -/
inductive PEffect
  | logDebug
  | subscribeCall
  | registerSubscriptionCall
  | armListenerOnce (cmd : WorkerMessengerCommand)
  | unicast (cmd : WorkerMessengerCommand)
  | runRemoteCommand
  | dbRemove (store key : String)
deriving DecidableEq, Repr

/-- The local key/value database, modelled as the list of
(store, key) pairs currently present. -/
abbrev DatabaseState := List (String × String)

/-- `Database.remove(store, key)`: afterwards the pair is absent. -/
def Database.remove (store key : String) (db : DatabaseState) : DatabaseState :=
  db.filter (fun p => !(p.1 == store && p.2 == key))

/-- Environment of one `processExpiringSubscriptions` call. -/
structure ExpiringEnv where
  /-- `await context.subscriptionManager.isSubscriptionExpiring()` -/
  isSubscriptionExpiring : Bool
  /-- `await SdkEnvironment.getIntegration()` -/
  integrationKind : IntegrationKind
  /-- `SdkEnvironment.getWindowEnv()` -/
  windowEnv : WindowEnvironmentKind
  /-- `await context.subscriptionManager.subscribe(SubscriptionStrategyKind.SubscribeNew)` -/
  subscribeResult : Except JsError Unit
  /-- `await context.subscriptionManager.registerSubscription(rawPushSubscription)` -/
  registerResult : Except JsError Unit
  /-- `await proxyFrame.runCommand(PROCESS_EXPIRING_SUBSCRIPTIONS)` -/
  runRemoteCommandResult : Except JsError Unit

/-- Result of a `processExpiringSubscriptions` call. -/
structure ExpiringResult where
  trace : List PEffect
  db : DatabaseState
  outcome : Option JsError

namespace InitHelper

/-- Shallow embedding of `InitHelper.processExpiringSubscriptions`
(lines 61-110).  No error raised by an external call is caught locally. -/
def processExpiringSubscriptions (env : ExpiringEnv) (db : DatabaseState) :
    ExpiringResult :=
  -- line 64: Log.debug("Checking subscription expiration...")
  if !env.isSubscriptionExpiring then
    -- lines 66-69: not expiring, log and return
    { trace := [PEffect.logDebug, PEffect.logDebug]
      db := db
      outcome := none }
  else
    -- line 74: Log.debug("Subscription is considered expiring. ...")
    let tr0 : List PEffect := [PEffect.logDebug, PEffect.logDebug]
    match env.integrationKind with
    | .Secure =>
      -- lines 83-86: subscribe(SubscribeNew), then registerSubscription
      match env.subscribeResult with
      | .error e =>
        { trace := tr0 ++ [PEffect.subscribeCall]
          db := db
          outcome := some e }
      | .ok _ =>
        match env.registerResult with
        | .error e =>
          { trace := tr0 ++ [PEffect.subscribeCall, PEffect.registerSubscriptionCall]
            db := db
            outcome := some e }
        | .ok _ =>
          { trace := tr0 ++ [PEffect.subscribeCall, PEffect.registerSubscriptionCall]
            db := db
            outcome := none }
    | .SecureProxy =>
      if env.windowEnv = .OneSignalProxyFrame then
        -- lines 88-95: arm the one-shot SubscribeNew listener, then unicast
        -- SubscribeNew carrying the app config; await the reply
        { trace := tr0 ++ [PEffect.armListenerOnce .SubscribeNew,
            PEffect.unicast .SubscribeNew, PEffect.logDebug]
          db := db
          outcome := none }
      else
        -- lines 97-98: delegate to the proxy frame host
        match env.runRemoteCommandResult with
        | .error e =>
          { trace := tr0 ++ [PEffect.runRemoteCommand]
            db := db
            outcome := some e }
        | .ok _ =>
          { trace := tr0 ++ [PEffect.runRemoteCommand]
            db := db
            outcome := none }
    | .InsecureProxy =>
      -- lines 101-108: remove the registration id to simulate unsubscribing
      { trace := tr0 ++ [PEffect.dbRemove "Ids" "registrationId", PEffect.logDebug]
        db := Database.remove "Ids" "registrationId" db
        outcome := none }

end InitHelper

/-- State of the visibility-deferred continuation registered by
`internalInit` (lines 353-366): whether the `visibilitychange` listener is
still registered, and the `sessionInit` calls made so far by the handler. -/
structure VisibilityWait where
  listenerActive : Bool
  sessionInitCalls : List SessionInitOptions
deriving DecidableEq, Repr

/-- Modelled from the spec: the `once` helper from `../utils` is not under
`src/`; per the spec's `VisibilityGate`, the registered handler runs on each
visibility-change signal while registered.  The handler body (lines
357-362) checks `document.visibilityState === 'visible'`; only then does it
deregister itself (`destroyEventListener()`) and call
`sessionInit({ __fromInit: true })`. -/
def visibilityChangeHandler (w : VisibilityWait) (visible : Bool) : VisibilityWait :=
  if w.listenerActive && visible then
    { listenerActive := false
      sessionInitCalls := w.sessionInitCalls ++ [{ __fromInit := true }] }
  else w

/-- Deliver a sequence of visibility-change events (each carrying the
document's visibility at that moment) to the waiting continuation. -/
def deliverVisibilityEvents (w : VisibilityWait) (evs : List Bool) : VisibilityWait :=
  evs.foldl visibilityChangeHandler w

namespace InitHelper

/-- The visibility check of `internalInit` (lines 353-368): if the document
is visible, `sessionInit({ __fromInit: true })` runs at once and no listener
is registered; otherwise a listener is registered and `internalInit`
returns without calling `sessionInit`. -/
def internalInitVisibilityStep (visible : Bool) : VisibilityWait :=
  if visible then
    { listenerActive := false
      sessionInitCalls := [{ __fromInit := true }] }
  else
    { listenerActive := true
      sessionInitCalls := [] }

end InitHelper

/-- The only handler `installNativePromptPermissionChangedHook` installs:
the function assigned to `permissionStatus.onchange` (lines 264-266), which
invokes `triggerNotificationPermissionChanged()`. -/
inductive PermissionHandler
  | triggerNotificationPermissionChanged
deriving DecidableEq, Repr

/-- Environment of `installNativePromptPermissionChangedHook`: whether
`navigator.permissions` exists, and the `bowser` identity used by the
legacy-Firefox exclusion. -/
structure HookEnv where
  permissionsApiSupported : Bool
  firefox : Bool
  version : ℚ
deriving DecidableEq

/-- One `PermissionStatus` object for the notifications permission.  Per
the Permissions API, every `navigator.permissions.query(...)` call
resolves with a fresh `PermissionStatus` object; assigning `onchange`
overwrites the handler slot of that object only. -/
structure PermStatus where
  onchange : Option PermissionHandler
deriving DecidableEq, Repr

/-- Mutable state touched by `installNativePromptPermissionChangedHook`:
the `OneSignal._usingNativePermissionHook` flag and the list of live
notifications `PermissionStatus` objects obtained from
`navigator.permissions.query` calls so far (each stays alive with its
handler once the hook function has assigned its `onchange`). -/
structure HookState where
  usingNativePermissionHook : Bool
  permissionStatuses : List PermStatus
deriving DecidableEq, Repr

namespace InitHelper

/-- Shallow embedding of
`InitHelper.installNativePromptPermissionChangedHook` (lines 258-268).
When `navigator.permissions` exists and the browser is not the excluded
legacy Firefox, the function sets the flag, awaits
`navigator.permissions.query({ name: 'notifications' })` — which yields a
fresh `PermissionStatus` object — and assigns that new object's
`onchange`; `PermissionStatus` objects from earlier calls keep their
handlers. -/
def installNativePromptPermissionChangedHook (env : HookEnv) (st : HookState) :
    HookState :=
  if env.permissionsApiSupported && !(env.firefox && decide (env.version ≤ 45)) then
    { usingNativePermissionHook := true
      permissionStatuses :=
        st.permissionStatuses ++ [⟨some .triggerNotificationPermissionChanged⟩] }
  else st

end InitHelper

/-- How many times one native permission-change notification fires the
shared permission-changed signal: each live `PermissionStatus` object for
the changed permission dispatches its own change event, so the signal
fires once per live object whose `onchange` slot holds a handler. -/
def firePermissionChangeCount (st : HookState) : Nat :=
  (st.permissionStatuses.filter (fun p => p.onchange.isSome)).length

/-- Scans an effect trace: `true` when a `latchSet false` effect occurs and
no `sdkInitializedEvent` occurs before the first such reset. -/
def latchResetBeforeSdkEvent : List Effect → Bool
  | [] => false
  | Effect.latchSet false :: _ => true
  | Effect.sdkInitializedEvent :: _ => false
  | _ :: rest => latchResetBeforeSdkEvent rest

/-! Concrete browsers and environments used as test inputs. -/

/-- Firefox 90, desktop. -/
def firefox90 : Browser := ⟨false, false, true, false, false, 90⟩

/-- Chrome 65 on a tablet. -/
def chrome65Tablet : Browser := ⟨true, false, false, true, false, 65⟩

/-- Safari 13, desktop. -/
def safari13 : Browser := ⟨false, true, false, false, false, 13⟩

/-- A secure (non-workaround) environment, autoRegister configured true,
nothing previously shown, not opted out, every external call succeeding. -/
def baseSecureEnv : SessionInitEnv where
  browser := firefox90
  autoRegister := some true
  usingSubscriptionWorkaround := false
  wasHttpsNativePromptDismissed := false
  isHttpPromptAlreadyShown := false
  internalIsOptedOut := .ok false
  modalHostLoad := .ok ()
  showHttpPromptResult := .ok ()
  registerForPushResult := .ok ()

/-- `baseSecureEnv` but the awaited `internalIsOptedOut()` call rejects. -/
def optedOutThrowEnv : SessionInitEnv :=
  { baseSecureEnv with internalIsOptedOut := .error .other }

/-- `baseSecureEnv` but the awaited `registerForPush()` call rejects with
the benign `PushPermissionNotGrantedError`. -/
def registerThrowEnv : SessionInitEnv :=
  { baseSecureEnv with registerForPushResult := .error .pushPermissionNotGranted }

/-- `baseSecureEnv` on Chrome 65 tablet. -/
def chrome65Env : SessionInitEnv :=
  { baseSecureEnv with browser := chrome65Tablet }

/-- `baseSecureEnv` on Safari 13. -/
def safari13Env : SessionInitEnv :=
  { baseSecureEnv with browser := safari13 }

/-- `baseSecureEnv` but the HTTPS native prompt was previously dismissed. -/
def dismissedEnv : SessionInitEnv :=
  { baseSecureEnv with wasHttpsNativePromptDismissed := true }

/-- The legacy insecure-workaround environment, autoRegister true, popover
not yet shown, where the popover prompt rejects with a dismissal error. -/
def workaroundDismissedEnv : SessionInitEnv :=
  { baseSecureEnv with
      usingSubscriptionWorkaround := true
      showHttpPromptResult := .error .permissionMessageDismissed }

/-- A hook environment that supports the permissions API and is not the
excluded legacy Firefox. -/
def supportedHookEnv : HookEnv := ⟨true, false, 90⟩

/-- A renewal environment with an expiring subscription, for a given
integration kind and window environment; external calls succeed. -/
def expiringEnv (kind : IntegrationKind) (win : WindowEnvironmentKind) :
    ExpiringEnv where
  isSubscriptionExpiring := true
  integrationKind := kind
  windowEnv := win
  subscribeResult := .ok ()
  registerResult := .ok ()
  runRemoteCommandResult := .ok ()

/-! Helper lemmas about the visibility-wait continuation. -/

/-- A deregistered listener never changes the wait state again. -/
theorem visibilityChangeHandler_inactive (w : VisibilityWait)
    (h : w.listenerActive = false) (v : Bool) : visibilityChangeHandler w v = w := by
  simp [visibilityChangeHandler, h]

/-- Delivering any event sequence to a deregistered listener is a no-op. -/
theorem deliverVisibilityEvents_inactive (evs : List Bool) (w : VisibilityWait)
    (h : w.listenerActive = false) : deliverVisibilityEvents w evs = w := by
  induction evs with
  | nil => rfl
  | cons v rest ih =>
    calc deliverVisibilityEvents w (v :: rest)
        = deliverVisibilityEvents (visibilityChangeHandler w v) rest := rfl
      _ = deliverVisibilityEvents w rest := by
          rw [visibilityChangeHandler_inactive w h v]
      _ = w := ih

/-- Events that report the document hidden never change the wait state. -/
theorem deliverVisibilityEvents_all_hidden (evs : List Bool) (w : VisibilityWait)
    (h : ∀ v ∈ evs, v = false) : deliverVisibilityEvents w evs = w := by
  induction evs with
  | nil => rfl
  | cons v rest ih =>
    have hv : v = false := h v (by simp)
    have hrest : ∀ u ∈ rest, u = false := fun u hu => h u (by simp [hu])
    have hw : visibilityChangeHandler w v = w := by
      simp [visibilityChangeHandler, hv]
    calc deliverVisibilityEvents w (v :: rest)
        = deliverVisibilityEvents (visibilityChangeHandler w v) rest := rfl
      _ = deliverVisibilityEvents w rest := by rw [hw]
      _ = w := ih hrest

/-- The wait state registered by `internalInit` only ever reaches two
states: still waiting with no call made, or fired once with a single
`{ __fromInit := true }` call. -/
theorem deliverVisibilityEvents_reach (evs : List Bool) (w : VisibilityWait)
    (h : w = ⟨true, []⟩ ∨ w = ⟨false, [{ __fromInit := true }]⟩) :
    deliverVisibilityEvents w evs = (⟨true, []⟩ : VisibilityWait) ∨
      deliverVisibilityEvents w evs = (⟨false, [{ __fromInit := true }]⟩ : VisibilityWait) := by
  induction evs generalizing w with
  | nil => simpa [deliverVisibilityEvents] using h
  | cons v rest ih =>
    have hstep : visibilityChangeHandler w v = (⟨true, []⟩ : VisibilityWait) ∨
        visibilityChangeHandler w v = (⟨false, [{ __fromInit := true }]⟩ : VisibilityWait) := by
      rcases h with h | h <;> subst h <;> cases v <;>
        simp [visibilityChangeHandler]
    simpa [deliverVisibilityEvents, List.foldl_cons] using ih _ hstep

/-! Claim theorems. -/

/-- Claim C1, counterexample: `sessionInit` acquires the latch and then the
awaited `internalIsOptedOut()` call throws; the call rejects with the
latch still set to `true`, so the latch is not reset on this thrown-error
exit path (there is no try/finally around the body). -/
theorem sessionInit_latch_stuck_on_thrown_error :
    (InitHelper.sessionInit optedOutThrowEnv {} false).outcome = some JsError.other ∧
    (InitHelper.sessionInit optedOutThrowEnv {} false).latch = true := by
  constructor <;> rfl

/-- Claim C1, amended: every run of `sessionInit` that acquires the latch
and returns normally (resolves) leaves the latch reset to `false`; only a
thrown error from an awaited call made before `finishSessionInit` can
leave the latch set. -/
theorem sessionInit_resets_latch_on_normal_return (env : SessionInitEnv)
    (opts : SessionInitOptions) :
    (InitHelper.sessionInit env opts false).outcome = none →
    (InitHelper.sessionInit env opts false).latch = false := by
  unfold InitHelper.sessionInit
  repeat' split
  all_goals simp_all

/-- Witness for C1's amended theorem at a concrete all-succeeding run. -/
theorem sessionInit_resets_latch_on_normal_return_witness :
    (InitHelper.sessionInit baseSecureEnv {} false).outcome = none ∧
    (InitHelper.sessionInit baseSecureEnv {} false).latch = false :=
  ⟨by decide, sessionInit_resets_latch_on_normal_return baseSecureEnv {} (by decide)⟩

/-- Claim C2: a `sessionInit` call made while the latch is already `true`
returns normally, leaves the latch unchanged, and performs no effect other
than debug logging. -/
theorem sessionInit_reentrant_noop (env : SessionInitEnv) (opts : SessionInitOptions) :
    InitHelper.sessionInit env opts true =
      ⟨true, [Effect.logDebug, Effect.logDebug], none⟩ := rfl

/-- Claim C3, counterexample: in the secure (`DirectSecure`) mode with the
Native strategy selected, the benign `PushPermissionNotGrantedError` raised
by the awaited `registerForPush()` call is not caught: `sessionInit`
rejects with it. -/
theorem sessionInit_throws_on_benign_register_error :
    (InitHelper.sessionInit registerThrowEnv {} false).outcome =
      some JsError.pushPermissionNotGranted := by rfl

/-- Claim C3, amended: in the legacy insecure-workaround mode (autoRegister
true, popover not already shown) every error raised by the popover prompt
is caught and `sessionInit` resolves; benign prompt-flow errors produce no
info-level log (they are logged at debug level) while any other error is
logged at info level.  In the secure mode the slide-down prompt is invoked
fire-and-forget, so its failure also does not make `sessionInit` throw; an
error from the awaited `registerForPush` call, however, propagates. -/
theorem sessionInit_workaround_prompt_errors_absorbed :
    (∀ (env : SessionInitEnv) (opts : SessionInitOptions) (e : JsError),
      env.usingSubscriptionWorkaround = true →
      env.autoRegister = some true →
      env.isHttpPromptAlreadyShown = false →
      env.showHttpPromptResult = Except.error e →
      opts.__fromRegister = false →
      (InitHelper.sessionInit env opts false).outcome = none ∧
      (e.isBenignPromptError = true →
        Effect.logInfo ∉ (InitHelper.sessionInit env opts false).trace) ∧
      (e.isBenignPromptError = false →
        Effect.logInfo ∈ (InitHelper.sessionInit env opts false).trace)) ∧
    (∀ (env : SessionInitEnv) (opts : SessionInitOptions) (e : JsError),
      env.usingSubscriptionWorkaround = false →
      env.wasHttpsNativePromptDismissed = false →
      env.internalIsOptedOut = Except.ok false →
      opts.__fromRegister = false →
      InitHelper.showSlidedownCond env opts = true →
      env.showHttpPromptResult = Except.error e →
      (InitHelper.sessionInit env opts false).outcome = none) := by
  constructor
  · intro env opts e hw har hshown hprompt hfr
    have hmodal : (opts.__fromRegister && opts.modalPrompt) = false := by
      simp [hfr]
    refine ⟨?_, ?_, ?_⟩ <;>
      simp_all [InitHelper.sessionInit, InitHelper.finishSessionInit]
  · intro env opts e hw hdism hopt hfr hsd hprompt
    simp_all [InitHelper.sessionInit, InitHelper.finishSessionInit]

/-- Witness for C3's amended theorem: the popover prompt rejects with the
benign dismissal error in the workaround environment and `sessionInit`
resolves with no info-level log. -/
theorem sessionInit_workaround_prompt_errors_absorbed_witness :
    (InitHelper.sessionInit workaroundDismissedEnv {} false).outcome = none ∧
    (JsError.permissionMessageDismissed.isBenignPromptError = true →
      Effect.logInfo ∉ (InitHelper.sessionInit workaroundDismissedEnv {} false).trace) ∧
    (JsError.permissionMessageDismissed.isBenignPromptError = false →
      Effect.logInfo ∈ (InitHelper.sessionInit workaroundDismissedEnv {} false).trace) :=
  sessionInit_workaround_prompt_errors_absorbed.1 workaroundDismissedEnv {}
    JsError.permissionMessageDismissed rfl rfl rfl rfl rfl

/-- Claim C4: on the secure (non-workaround), not-opted-out path the prompt
strategy follows the decision table.  The general conjunct: a tracked
browser at or above its threshold (Chrome ≥ 63 on mobile/tablet, Safari
≥ 12.1) with autoRegister configured true and not an explicit register call
takes the slide-down path (and not the native registration).  The four
instances: Chrome 65 tablet → SlideDown, Safari 13 → SlideDown, Firefox 90
with autoRegister and nothing shown before → Native, and a previously
dismissed HTTPS native prompt on a from-init call → Suppressed (neither
prompt effect). -/
theorem sessionInit_prompt_strategy_table :
    (∀ (env : SessionInitEnv) (opts : SessionInitOptions),
      env.usingSubscriptionWorkaround = false →
      env.wasHttpsNativePromptDismissed = false →
      env.internalIsOptedOut = Except.ok false →
      opts.__fromRegister = false →
      env.autoRegister = some true →
      ((env.browser.chrome = true ∧ env.browser.version ≥ 63 ∧
          (env.browser.tablet = true ∨ env.browser.mobile = true)) ∨
        (env.browser.safari = true ∧ env.browser.version ≥ (12.1 : ℚ))) →
      Effect.showHttpPrompt ∈ (InitHelper.sessionInit env opts false).trace ∧
      Effect.registerForPushCall ∉ (InitHelper.sessionInit env opts false).trace) ∧
    (Effect.showHttpPrompt ∈ (InitHelper.sessionInit chrome65Env {} false).trace ∧
      Effect.registerForPushCall ∉ (InitHelper.sessionInit chrome65Env {} false).trace) ∧
    (Effect.showHttpPrompt ∈ (InitHelper.sessionInit safari13Env {} false).trace ∧
      Effect.registerForPushCall ∉ (InitHelper.sessionInit safari13Env {} false).trace) ∧
    (Effect.registerForPushCall ∈ (InitHelper.sessionInit baseSecureEnv {} false).trace ∧
      Effect.showHttpPrompt ∉ (InitHelper.sessionInit baseSecureEnv {} false).trace) ∧
    (Effect.showHttpPrompt ∉
        (InitHelper.sessionInit dismissedEnv { __fromInit := true } false).trace ∧
      Effect.registerForPushCall ∉
        (InitHelper.sessionInit dismissedEnv { __fromInit := true } false).trace) := by
  refine ⟨?_, by decide, ⟨?_, ?_⟩, by decide, by decide⟩
  · intro env opts hw hdism hopt hfr har hbr
    have hsd : InitHelper.showSlidedownCond env opts = true := by
      simp only [InitHelper.showSlidedownCond, hfr, har]
      rcases hbr with ⟨hc, hv, hm⟩ | ⟨hs, hv⟩
      · simp [hc, decide_eq_true hv]
        rcases hm with hm | hm <;> simp [hm]
      · simp [hs, decide_eq_true hv]
    cases hfi : opts.__fromInit <;>
      simp_all [InitHelper.sessionInit, InitHelper.finishSessionInit]
  · norm_num [InitHelper.sessionInit, InitHelper.finishSessionInit,
      InitHelper.showSlidedownCond, safari13Env, safari13, baseSecureEnv]
  · norm_num [InitHelper.sessionInit, InitHelper.finishSessionInit,
      InitHelper.showSlidedownCond, safari13Env, safari13, baseSecureEnv]
    decide

/-- Witness for C4 at the Chrome 65 tablet input, through the general
conjunct of the decision table. -/
theorem sessionInit_prompt_strategy_table_witness :
    Effect.showHttpPrompt ∈ (InitHelper.sessionInit chrome65Env {} false).trace ∧
    Effect.registerForPushCall ∉ (InitHelper.sessionInit chrome65Env {} false).trace :=
  sessionInit_prompt_strategy_table.1 chrome65Env {} rfl rfl rfl rfl rfl
    (Or.inl ⟨rfl, by decide, Or.inl rfl⟩)

/-- Claim C5: in the proxied-secure mode inside the auxiliary frame the
renewal coordinator's trace arms the one-shot `SubscribeNew` listener
before sending the `SubscribeNew` unicast, and the call resolves; a
matching reply resolves the pending request with the deserialized
subscription payload, while any unrelated command leaves it unresolved. -/
theorem processExpiringSubscriptions_proxyFrame_renewal :
    (∀ (env : ExpiringEnv) (db : DatabaseState),
      env.isSubscriptionExpiring = true →
      env.integrationKind = IntegrationKind.SecureProxy →
      env.windowEnv = WindowEnvironmentKind.OneSignalProxyFrame →
      (InitHelper.processExpiringSubscriptions env db).trace =
        [PEffect.logDebug, PEffect.logDebug,
          PEffect.armListenerOnce WorkerMessengerCommand.SubscribeNew,
          PEffect.unicast WorkerMessengerCommand.SubscribeNew, PEffect.logDebug] ∧
      (InitHelper.processExpiringSubscriptions env db).outcome = none) ∧
    (∀ payload : SubscriptionBundle,
      deliverWorkerMessage (armRenewalListener .SubscribeNew) .SubscribeNew payload =
        ⟨WorkerMessengerCommand.SubscribeNew, some (Subscription.deserialize payload)⟩) ∧
    (∀ (cmd : WorkerMessengerCommand) (payload : SubscriptionBundle),
      cmd ≠ WorkerMessengerCommand.SubscribeNew →
      (deliverWorkerMessage (armRenewalListener .SubscribeNew) cmd payload).resolvedWith =
        none) := by
  refine ⟨?_, ?_, ?_⟩
  · intro env db h1 h2 h3
    constructor <;> simp [InitHelper.processExpiringSubscriptions, h1, h2, h3]
  · intro payload
    simp [deliverWorkerMessage, armRenewalListener]
  · intro cmd payload hne
    simp [deliverWorkerMessage, armRenewalListener, hne]

/-- Witness for C5 at a concrete proxied-secure auxiliary-frame
environment with an empty database. -/
theorem processExpiringSubscriptions_proxyFrame_renewal_witness :
    (InitHelper.processExpiringSubscriptions
        (expiringEnv IntegrationKind.SecureProxy WindowEnvironmentKind.OneSignalProxyFrame)
        []).trace =
      [PEffect.logDebug, PEffect.logDebug,
        PEffect.armListenerOnce WorkerMessengerCommand.SubscribeNew,
        PEffect.unicast WorkerMessengerCommand.SubscribeNew, PEffect.logDebug] ∧
    (InitHelper.processExpiringSubscriptions
        (expiringEnv IntegrationKind.SecureProxy WindowEnvironmentKind.OneSignalProxyFrame)
        []).outcome = none :=
  processExpiringSubscriptions_proxyFrame_renewal.1
    (expiringEnv IntegrationKind.SecureProxy WindowEnvironmentKind.OneSignalProxyFrame)
    [] rfl rfl rfl

/-- Claim C6: when `internalInit` reaches the visibility check with the
document hidden, no `sessionInit` call is made and the listener is armed;
hidden events never release the wait; over any event sequence at most one
`sessionInit` call results and it carries `__fromInit = true`; a visible
event fires the handler, removes the listener, and makes the call; after
firing, further events are no-ops. -/
theorem internalInit_visibility_deferral :
    (InitHelper.internalInitVisibilityStep false).sessionInitCalls = [] ∧
    (InitHelper.internalInitVisibilityStep false).listenerActive = true ∧
    (∀ evs : List Bool, (∀ v ∈ evs, v = false) →
      deliverVisibilityEvents (InitHelper.internalInitVisibilityStep false) evs =
        InitHelper.internalInitVisibilityStep false) ∧
    (∀ evs : List Bool,
      (deliverVisibilityEvents (InitHelper.internalInitVisibilityStep false)
            evs).sessionInitCalls.length ≤ 1 ∧
      ∀ o ∈ (deliverVisibilityEvents (InitHelper.internalInitVisibilityStep false)
          evs).sessionInitCalls, o.__fromInit = true) ∧
    (visibilityChangeHandler (InitHelper.internalInitVisibilityStep false) true =
      ⟨false, [{ __fromInit := true }]⟩) ∧
    (∀ evs : List Bool,
      deliverVisibilityEvents
          (visibilityChangeHandler (InitHelper.internalInitVisibilityStep false) true) evs =
        visibilityChangeHandler (InitHelper.internalInitVisibilityStep false) true) := by
  refine ⟨rfl, rfl, ?_, ?_, rfl, ?_⟩
  · intro evs h
    exact deliverVisibilityEvents_all_hidden evs _ h
  · intro evs
    have hreach := deliverVisibilityEvents_reach evs
      (InitHelper.internalInitVisibilityStep false) (Or.inl rfl)
    rcases hreach with h | h <;> rw [h] <;> simp
  · intro evs
    exact deliverVisibilityEvents_inactive evs _ rfl

/-- Witness for C6: two hidden events leave the armed wait unchanged. -/
theorem internalInit_visibility_deferral_witness :
    deliverVisibilityEvents (InitHelper.internalInitVisibilityStep false) [false, false] =
      InitHelper.internalInitVisibilityStep false :=
  internalInit_visibility_deferral.2.2.1 [false, false] (by decide)

/-- Claim C7: in the `Secure` (`DirectSecure`) mode with an expiring
subscription, `subscribe` runs first and `registerSubscription` after it,
sequentially; a failure of `subscribe` propagates (and skips
`registerSubscription`), and a failure of `registerSubscription`
propagates as well — neither is caught locally. -/
theorem processExpiringSubscriptions_secure_sequential :
    (∀ (env : ExpiringEnv) (db : DatabaseState),
      env.isSubscriptionExpiring = true →
      env.integrationKind = IntegrationKind.Secure →
      env.subscribeResult = Except.ok () →
      (InitHelper.processExpiringSubscriptions env db).trace =
        [PEffect.logDebug, PEffect.logDebug, PEffect.subscribeCall,
          PEffect.registerSubscriptionCall]) ∧
    (∀ (env : ExpiringEnv) (db : DatabaseState) (e : JsError),
      env.isSubscriptionExpiring = true →
      env.integrationKind = IntegrationKind.Secure →
      env.subscribeResult = Except.error e →
      (InitHelper.processExpiringSubscriptions env db).outcome = some e ∧
      PEffect.registerSubscriptionCall ∉
        (InitHelper.processExpiringSubscriptions env db).trace) ∧
    (∀ (env : ExpiringEnv) (db : DatabaseState) (e : JsError),
      env.isSubscriptionExpiring = true →
      env.integrationKind = IntegrationKind.Secure →
      env.subscribeResult = Except.ok () →
      env.registerResult = Except.error e →
      (InitHelper.processExpiringSubscriptions env db).outcome = some e) := by
  refine ⟨?_, ?_, ?_⟩
  · intro env db h1 h2 h3
    rcases henv : env.registerResult with e | u <;>
      simp [InitHelper.processExpiringSubscriptions, h1, h2, h3, henv]
  · intro env db e h1 h2 h3
    constructor <;> simp [InitHelper.processExpiringSubscriptions, h1, h2, h3]
  · intro env db e h1 h2 h3 h4
    simp [InitHelper.processExpiringSubscriptions, h1, h2, h3, h4]

/-- Witness for C7 at a concrete secure environment where both steps
succeed: the trace shows subscribe before register. -/
theorem processExpiringSubscriptions_secure_sequential_witness :
    (InitHelper.processExpiringSubscriptions
        (expiringEnv IntegrationKind.Secure WindowEnvironmentKind.Host) []).trace =
      [PEffect.logDebug, PEffect.logDebug, PEffect.subscribeCall,
        PEffect.registerSubscriptionCall] :=
  processExpiringSubscriptions_secure_sequential.1
    (expiringEnv IntegrationKind.Secure WindowEnvironmentKind.Host) [] rfl rfl rfl

/-- Claim C8: in the `InsecureProxy` (`InsecureLegacy`) mode with an
expiring subscription, after `processExpiringSubscriptions` the
("Ids", "registrationId") entry is absent from the database, no subscribe
or backend-register operation was attempted, and the call resolves. -/
theorem processExpiringSubscriptions_insecure_removes_registrationId
    (env : ExpiringEnv) (db : DatabaseState)
    (h1 : env.isSubscriptionExpiring = true)
    (h2 : env.integrationKind = IntegrationKind.InsecureProxy) :
    ("Ids", "registrationId") ∉ (InitHelper.processExpiringSubscriptions env db).db ∧
    PEffect.subscribeCall ∉ (InitHelper.processExpiringSubscriptions env db).trace ∧
    PEffect.registerSubscriptionCall ∉
      (InitHelper.processExpiringSubscriptions env db).trace ∧
    (InitHelper.processExpiringSubscriptions env db).outcome = none := by
  refine ⟨?_, ?_, ?_, ?_⟩ <;>
    simp [InitHelper.processExpiringSubscriptions, Database.remove, h1, h2,
      List.mem_filter]

/-- Witness for C8 at a database that initially holds the registration
identifier. -/
theorem processExpiringSubscriptions_insecure_removes_registrationId_witness :
    ("Ids", "registrationId") ∉
      (InitHelper.processExpiringSubscriptions
        (expiringEnv IntegrationKind.InsecureProxy WindowEnvironmentKind.Host)
        [("Ids", "registrationId")]).db ∧
    PEffect.subscribeCall ∉
      (InitHelper.processExpiringSubscriptions
        (expiringEnv IntegrationKind.InsecureProxy WindowEnvironmentKind.Host)
        [("Ids", "registrationId")]).trace ∧
    PEffect.registerSubscriptionCall ∉
      (InitHelper.processExpiringSubscriptions
        (expiringEnv IntegrationKind.InsecureProxy WindowEnvironmentKind.Host)
        [("Ids", "registrationId")]).trace ∧
    (InitHelper.processExpiringSubscriptions
        (expiringEnv IntegrationKind.InsecureProxy WindowEnvironmentKind.Host)
        [("Ids", "registrationId")]).outcome = none :=
  processExpiringSubscriptions_insecure_removes_registrationId
    (expiringEnv IntegrationKind.InsecureProxy WindowEnvironmentKind.Host)
    [("Ids", "registrationId")] rfl rfl

/-- Claim C9: every `sessionInit` run that acquires the latch and resolves
resets the latch before emitting any `SDK_INITIALIZED` completion signal,
and the signal is emitted exactly when the run's options carry
`__fromInit`. -/
theorem sessionInit_finalization_resets_latch_before_sdkInitialized
    (env : SessionInitEnv) (opts : SessionInitOptions) :
    (InitHelper.sessionInit env opts false).outcome = none →
    latchResetBeforeSdkEvent (InitHelper.sessionInit env opts false).trace = true ∧
    (Effect.sdkInitializedEvent ∈ (InitHelper.sessionInit env opts false).trace ↔
      opts.__fromInit = true) := by
  rcases opts with ⟨mp, fr, fi, aa⟩
  cases fi <;>
    · unfold InitHelper.sessionInit
      repeat' split
      all_goals simp_all [InitHelper.finishSessionInit, latchResetBeforeSdkEvent]

/-- Witness for C9 at a from-init run in the all-succeeding secure
environment. -/
theorem sessionInit_finalization_resets_latch_before_sdkInitialized_witness :
    (InitHelper.sessionInit baseSecureEnv { __fromInit := true } false).outcome = none ∧
    (latchResetBeforeSdkEvent
        (InitHelper.sessionInit baseSecureEnv { __fromInit := true } false).trace = true ∧
      (Effect.sdkInitializedEvent ∈
          (InitHelper.sessionInit baseSecureEnv { __fromInit := true } false).trace ↔
        ({ __fromInit := true } : SessionInitOptions).__fromInit = true)) :=
  ⟨by decide,
    sessionInit_finalization_resets_latch_before_sdkInitialized baseSecureEnv
      { __fromInit := true } (by decide)⟩

/-- Claim C10, counterexample: installing the hook twice in the supporting
environment leaves two live `PermissionStatus` objects, each holding a
handler — the second `navigator.permissions.query` call yields a fresh
object, so the second assignment does not overwrite the first object's
handler — and one native permission change fires the shared signal twice,
once per installation; the double installation also differs from a single
one, so the function is not observably idempotent. -/
theorem installNativePromptPermissionChangedHook_not_idempotent :
    firePermissionChangeCount
        (InitHelper.installNativePromptPermissionChangedHook supportedHookEnv
          (InitHelper.installNativePromptPermissionChangedHook supportedHookEnv
            ⟨false, []⟩)) = 2 ∧
    InitHelper.installNativePromptPermissionChangedHook supportedHookEnv
        (InitHelper.installNativePromptPermissionChangedHook supportedHookEnv
          ⟨false, []⟩) ≠
      InitHelper.installNativePromptPermissionChangedHook supportedHookEnv
        ⟨false, []⟩ := by
  constructor
  · rfl
  · decide

/-- Claim C10, amended: in a supporting, non-excluded environment each
installation sets `_usingNativePermissionHook` and adds exactly one active
handler on a fresh `PermissionStatus` object, so a single native
permission change fires the shared signal once more per installation; in a
non-supporting (or excluded legacy Firefox) environment the call is a
no-op.  At-most-once firing is not guarded by the code itself. -/
theorem installNativePromptPermissionChangedHook_accumulates :
    (∀ (env : HookEnv) (st : HookState),
      (env.permissionsApiSupported && !(env.firefox && decide (env.version ≤ 45))) = true →
      (InitHelper.installNativePromptPermissionChangedHook env
          st).usingNativePermissionHook = true ∧
      firePermissionChangeCount
          (InitHelper.installNativePromptPermissionChangedHook env st) =
        firePermissionChangeCount st + 1) ∧
    (∀ (env : HookEnv) (st : HookState),
      (env.permissionsApiSupported && !(env.firefox && decide (env.version ≤ 45))) = false →
      InitHelper.installNativePromptPermissionChangedHook env st = st) := by
  constructor
  · intro env st hc
    have hc2 : env.permissionsApiSupported = true ∧
        (env.firefox = false ∨ 45 < env.version) := by simpa using hc
    constructor <;>
      simp [InitHelper.installNativePromptPermissionChangedHook, hc2,
        firePermissionChangeCount, List.filter_append]
  · intro env st hc
    have hc2 : ¬(env.permissionsApiSupported = true ∧
        (env.firefox = false ∨ 45 < env.version)) := by
      simpa using hc
    simp [InitHelper.installNativePromptPermissionChangedHook, hc2]

/-- Witness for C10's amended theorem: one installation in the supporting
hook environment, starting from the empty hook state, arms one handler. -/
theorem installNativePromptPermissionChangedHook_accumulates_witness :
    (InitHelper.installNativePromptPermissionChangedHook supportedHookEnv
        ⟨false, []⟩).usingNativePermissionHook = true ∧
    firePermissionChangeCount
        (InitHelper.installNativePromptPermissionChangedHook supportedHookEnv
          ⟨false, []⟩) =
      firePermissionChangeCount (⟨false, []⟩ : HookState) + 1 :=
  installNativePromptPermissionChangedHook_accumulates.1 supportedHookEnv
    ⟨false, []⟩ (by decide)

end OneSignalSDK
